import Mathlib

/-!
Verification of the Content-Aware Search and Relevance Ranking Engine of an
MCP Google Drive server.

The definitions below are a shallow embedding of the TypeScript sources:
  * src/services/drive.service.ts (candidate retrieval, relevance scoring,
    summarization, ranking orchestrator),
  * src/index.ts (presentation text extraction),
  * src/tools/common.ts and src/tools/drive.tools.ts (authentication gate).

JavaScript strings are modelled through their character lists; the network
calls made by the services (Google Drive / Docs / Sheets / Slides APIs) are
modelled as explicit oracle parameters returning `Except`; JavaScript
exceptions are modelled by `Except`.
-/

/-- Whitespace test matching the JavaScript white-space class used by the
regular expressions and by trimming in the sources (ASCII whitespace plus
no-break space, ideographic space, line and paragraph separators, BOM). -/
def jsWhitespace (c : Char) : Bool :=
  c = ' ' || c = '\t' || c = '\n' || c = '\r' || c = '\x0b' || c = '\x0c' ||
  c = ' ' || c = '　' || c = ' ' || c = ' ' || c = '﻿'

/-- Model of String.prototype.toLowerCase for the strings handled by this
code base (per-character lowercasing). -/
def jsLower (s : String) : String :=
  String.mk (s.data.map Char.toLower)

/-- Boolean test that the first list is an initial segment of the second. -/
def prefB : List Char → List Char → Bool
  | [], _ => true
  | _ :: _, [] => false
  | a :: as, b :: bs => a = b && prefB as bs

/-- Boolean test that the pattern occurs as a contiguous sublist; model of
String.prototype.includes. -/
def containsSub (pat : List Char) : List Char → Bool
  | [] => prefB pat []
  | c :: rest => prefB pat (c :: rest) || containsSub pat rest

/-- String-level wrapper for `containsSub`: model of
String.prototype.includes. -/
def strIncludes (hay pat : String) : Bool :=
  containsSub pat.data hay.data

/-- Decidable equality for `Except`, used to evaluate the embedded
fallible operations on concrete inputs. -/
instance instDecEqExcept {ε α : Type} [DecidableEq ε] [DecidableEq α] :
    DecidableEq (Except ε α) := fun a b =>
  match a, b with
  | Except.ok x, Except.ok y =>
    if h : x = y then isTrue (by rw [h])
    else isFalse (fun hc => h (Except.ok.inj hc))
  | Except.error x, Except.error y =>
    if h : x = y then isTrue (by rw [h])
    else isFalse (fun hc => h (Except.error.inj hc))
  | Except.ok _, Except.error _ => isFalse (fun hc => Except.noConfusion hc)
  | Except.error _, Except.ok _ => isFalse (fun hc => Except.noConfusion hc)

/-- Helper for `splitRuns`; accumulates the current fragment (reversed). The
fuel argument (an upper bound on the list length) only makes the recursion
structural; it never runs out. -/
def splitRunsAux (p : Char → Bool) (fuel : Nat) (acc : List Char) (cs : List Char) :
    List (List Char) :=
  match fuel with
  | 0 => [acc.reverse]
  | fuel + 1 =>
    match cs with
    | [] => [acc.reverse]
    | c :: rest =>
      if p c then
        acc.reverse :: splitRunsAux p fuel [] (rest.dropWhile p)
      else
        splitRunsAux p fuel (c :: acc) rest

/-- Model of JavaScript `s.split(re)` where `re` matches maximal nonempty
runs of characters satisfying `p` (such as `/\s+/` or the sentence-delimiter
class): the fragments between the runs, keeping the empty fragments
produced at the two ends. -/
def splitRuns (p : Char → Bool) (s : String) : List String :=
  (splitRunsAux p s.data.length [] s.data).map String.mk

/-- Model of JavaScript `s.split(/\s+/)`. -/
def splitWs (s : String) : List String :=
  splitRuns jsWhitespace s

/-- Model of String.prototype.trim: drop whitespace from both ends. -/
def jsTrim (s : String) : String :=
  String.mk (((s.data.dropWhile jsWhitespace).reverse.dropWhile jsWhitespace).reverse)

/-- Token of the modelled fragment of the ECMAScript regular-expression
language: a plain character or the `.` wildcard. -/
inductive JsRegexToken where
  | lit (c : Char)
  | wildcard
deriving DecidableEq

/-- Characters that are syntax characters of the ECMAScript
regular-expression language (the code builds its patterns with
`new RegExp(term, "g")` without escaping the term). -/
def jsRegexMeta (c : Char) : Bool :=
  c = '.' || c = '*' || c = '+' || c = '?' || c = '(' || c = ')' ||
  c = '[' || c = ']' || c = '{' || c = '}' || c = '|' || c = '^' ||
  c = '$' || c = '\\'

/-- Modelled from the ECMAScript RegExp constructor (a platform collaborator,
not part of src/): parsing of the pattern string, restricted to the fragment
this development reasons about — plain characters and the `.` wildcard.
Every other syntax character is rejected, as the unterminated group `"("` is
rejected (with a thrown SyntaxError) by the real constructor. -/
def parseJsRegex : List Char → Except Unit (List JsRegexToken)
  | [] => Except.ok []
  | c :: rest =>
    if c = '.' then (parseJsRegex rest).map (JsRegexToken.wildcard :: ·)
    else if jsRegexMeta c then Except.error ()
    else (parseJsRegex rest).map (JsRegexToken.lit c :: ·)

/-- Matching of one regex token against one character. -/
def tokMatch : JsRegexToken → Char → Bool
  | JsRegexToken.lit c, d => c = d
  | JsRegexToken.wildcard, _ => true

/-- Prefix match of a token list (each token consumes one character). -/
def matchesAt : List JsRegexToken → List Char → Bool
  | [], _ => true
  | _ :: _, [] => false
  | t :: ts, c :: cs => tokMatch t c && matchesAt ts cs

/-- Global non-overlapping match count, scanning left to right: the
behaviour of `str.match(re) || []).length` with a global regex in the
modelled fragment (an empty pattern matches once per position and once at
the end, as in ECMAScript). -/
def jsCountAux (fuel : Nat) (tks : List JsRegexToken) (cs : List Char) : Nat :=
  match fuel with
  | 0 => if tks.isEmpty then 1 else 0
  | fuel + 1 =>
    match cs with
    | [] => if tks.isEmpty then 1 else 0
    | c :: rest =>
      if matchesAt tks (c :: rest) then
        1 + jsCountAux fuel tks (rest.drop (tks.length - 1))
      else
        jsCountAux fuel tks rest

/-- Modelled from the source line
`(contentLower.match(new RegExp(term, 'g')) || []).length`:
build the regex from the raw term (throwing on invalid pattern syntax) and
count its global matches in the text. -/
def contentMatchCount (term text : String) : Except Unit Nat :=
  (parseJsRegex term.data).map (fun tks => jsCountAux text.data.length tks text.data)

/-- Number of non-overlapping occurrences of `pat` as a literal contiguous
sublist, scanning left to right (the empty pattern occurs once per position
and once at the end, matching `includes`/`match` conventions). This is the
specification-side notion of "occurrence count of the term in the text,
counted as a literal substring". -/
def countOccurrencesAux (fuel : Nat) (pat : List Char) (cs : List Char) : Nat :=
  match fuel with
  | 0 => if pat.isEmpty then 1 else 0
  | fuel + 1 =>
    match cs with
    | [] => if pat.isEmpty then 1 else 0
    | c :: rest =>
      if prefB pat (c :: rest) then
        1 + countOccurrencesAux fuel pat (rest.drop (pat.length - 1))
      else
        countOccurrencesAux fuel pat rest

/-- String-level wrapper for `countOccurrencesAux`. -/
def countOccurrencesStr (pat s : String) : Nat :=
  countOccurrencesAux s.data.length pat.data s.data

/-- Body of the forEach of `calculateRelevanceScore` from
src/services/drive.service.ts (lines 177-191): one query term contributes
+10 on a file-name substring hit, +2 per global regex match of the raw term
in the lowercased content, and +20 when the file name equals the term or
the lowercased content contains the lowercased full query. The unescaped
RegExp construction can throw, which `Except.error` models. -/
def scoreTermStep (query fileNameLower contentLower : String)
    (score : Int) (term : String) : Except Unit Int := do
  let score := if strIncludes fileNameLower term then score + 10 else score
  let contentMatches ← contentMatchCount term contentLower
  let score := score + (contentMatches : Int) * 2
  let score :=
    if fileNameLower = term || strIncludes contentLower (jsLower query) then
      score + 20
    else score
  pure score

/-- Embedding of `calculateRelevanceScore` (continued): fold the per-term
step over the whitespace-split lowercased query, starting from 0; the
JavaScript forEach aborts with the exception of the first throwing term,
which is exactly the `Except` fold. -/
def calculateRelevanceScore (query fileName content : String) : Except Unit Int :=
  let queryTerms := splitWs (jsLower query)
  let fileNameLower := jsLower fileName
  let contentLower := jsLower content
  queryTerms.foldlM (scoreTermStep query fileNameLower contentLower) 0


/-- Stable insertion of `x` after every element whose key is at least
`key x` (so an element inserted later never overtakes an equal-key element
that was already present). -/
def insertByKey {α : Type} (key : α → Int) (x : α) : List α → List α
  | [] => [x]
  | y :: ys => if key x ≤ key y then y :: insertByKey key x ys else x :: y :: ys

/-- Model of ES2019 Array.prototype.sort with the comparator
`(a, b) => key(b) - key(a)`: the stable sort ordering the array by `key`
descending. ECMAScript 2019 requires sort stability, so the stable
insertion sort is an exact model of the observable behaviour. -/
def sortByKeyDesc {α : Type} (key : α → Int) (l : List α) : List α :=
  l.foldl (fun acc x => insertByKey key x acc) []

/-- Sentence delimiter class of `generateSummary`
(the regex `[。！？\.\!\?]+` of drive.service.ts line 203). -/
def sentenceDelim (c : Char) : Bool :=
  c = '。' || c = '！' || c = '？' || c = '.' || c = '!' || c = '?'

/-- Uppercase ASCII letter test (the regex class `[A-Z]`). -/
def isAZUpper (c : Char) : Bool := 'A' ≤ c && c ≤ 'Z'

/-- Lowercase ASCII letter test (the regex class `[a-z]`). -/
def isAZLower (c : Char) : Bool := 'a' ≤ c && c ≤ 'z'

/-- ASCII letter test (the regex class `[a-zA-Z]`). -/
def isAZLetter (c : Char) : Bool := isAZUpper c || isAZLower c

/-- Count of global matches of `[A-Z][a-z]+` (greedy, non-overlapping),
modelling `(sentence.match(/[A-Z][a-z]+/g) || []).length`. Fuel only makes
the recursion structural. -/
def countCapitalWords (fuel : Nat) (cs : List Char) : Nat :=
  match fuel with
  | 0 => 0
  | fuel + 1 =>
    match cs with
    | [] => 0
    | c :: rest =>
      if isAZUpper c && (match rest with | r :: _ => isAZLower r | [] => false) then
        1 + countCapitalWords fuel (rest.dropWhile isAZLower)
      else
        countCapitalWords fuel rest

/-- Embedding of `calculateSentenceImportance` from
src/services/drive.service.ts (lines 242-303). The early-position bonus
condition `index < totalSentences * 0.3` is modelled by the rational
inequality `10 * index < 3 * totalSentences`; for the IEEE double `0.3`
and list lengths in range the two sides round identically. -/
def calculateSentenceImportance (sentence : String) (index totalSentences : Nat) : Int :=
  let length := sentence.data.length
  let score : Int := 0
  let score :=
    if 20 ≤ length ∧ length ≤ 150 then score + 10
    else if 10 ≤ length ∧ length ≤ 200 then score + 5
    else score
  let score :=
    if index = 0 ∨ index = totalSentences - 1 then score + 15
    else if 10 * index < 3 * totalSentences then score + 10
    else score
  let score := if sentence.data.any Char.isDigit then score + 3 else score
  let capitalWords := countCapitalWords sentence.data.length sentence.data
  let score := score + min ((capitalWords : Int) * 2) 8
  let punctuationCount :=
    (sentence.data.filter (fun c => c = '、' || c = '。' || c = '：' || c = '；')).length
  let score := if 2 ≤ punctuationCount then score + 3 else score
  let score :=
    if sentence.data.any (fun c => c = '？' || c = '！' || c = '?' || c = '!') then score + 5
    else score
  let score :=
    if sentence.data.any (fun c => c = '（' || c = '）' || c = '(' || c = ')') then score + 2
    else score
  let score :=
    if sentence.data.any (fun c => c = '：' || c = '→' || c = '←' || c = '↑' || c = '↓') then
      score + 3
    else score
  let clauseIndicators :=
    (sentence.data.filter (fun c =>
      c = 'が' || c = 'で' || c = 'に' || c = 'を' || c = 'は' ||
      c = 'も' || c = 'と' || c = 'か' || c = 'ら')).length
  let score := if 3 ≤ clauseIndicators then score + 2 else score
  let score :=
    if sentence.data.any isAZLetter && sentence.data.any Char.isDigit then score + 3
    else score
  score

/-- Sentence record built by the summarizer's map step: the trimmed text,
its importance score, and its original position. -/
structure SentenceInfo where
  text : String
  score : Int
  index : Nat
deriving DecidableEq

/-- Joining of a string list with a separator; model of Array.prototype.join. -/
def joinSep (sep : String) : List String → String
  | [] => ""
  | [s] => s
  | s :: t :: rest => s ++ sep ++ joinSep sep (t :: rest)

/-- Sentences of `generateSummary`: split on runs of the delimiter class,
then discard fragments that trim to the empty string. -/
def summarySentences (content : String) : List String :=
  (splitRuns sentenceDelim content).filter (fun s => 0 < (jsTrim s).data.length)

/-- Embedding of `generateSummary` from src/services/drive.service.ts
(lines 197-239). Empty or whitespace-only content gives the fixed
"empty content" notice; content with no non-delimiter text gives the fixed
"no readable text" notice; content of at most 300 characters is returned
trimmed; longer content is summarized by the top three important sentences
restored to document order (both sorts stable as in ECMAScript 2019),
joined by the full stop and truncated at 400 characters. -/
def generateSummary (content fileName : String) : String :=
  if (jsTrim content).data.length = 0 then
    fileName ++ "の内容は空です。"
  else
    let sentences := summarySentences content
    if sentences.length = 0 then
      fileName ++ "には読み取り可能なテキストが含まれていません。"
    else if content.data.length ≤ 300 then
      jsTrim content
    else
      let importantSentences :=
        sortByKeyDesc (fun si => -(si.index : Int))
          ((sortByKeyDesc (fun si => si.score)
            ((sentences.enum.map (fun p =>
              { text := jsTrim p.2,
                score := calculateSentenceImportance p.2 p.1 sentences.length,
                index := p.1 : SentenceInfo })).filter
              (fun si => 10 < si.text.data.length))).take 3)
      if importantSentences.length = 0 then
        String.mk (content.data.take 200) ++ "..."
      else
        let summary := joinSep "。" (importantSentences.map (fun si => si.text)) ++ "。"
        if 400 < summary.data.length then
          String.mk (summary.data.take 400) ++ "..."
        else
          summary


/-- File metadata record returned by the Drive metadata search (the fields
requested by drive.service.ts: id, name, mimeType, createdTime,
modifiedTime, webViewLink, iconLink). -/
structure FileInfo where
  id : String
  name : String
  mimeType : String
  createdTime : String
  modifiedTime : String
  webViewLink : String
  iconLink : String
deriving DecidableEq

/-- Result record assembled by `searchFilesWithContentAnalysis` for one
candidate file. -/
structure ScoredResult where
  id : String
  name : String
  link : String
  type : String
  modifiedTime : String
  relevanceScore : Int
  summary : String
deriving DecidableEq

/-- Response object of `searchFilesWithContentAnalysis`. -/
structure RankedResponse where
  query : String
  totalCount : Nat
  results : List ScoredResult
deriving DecidableEq

/-- Document tab as consumed by the orchestrator (`docContent.tabs`); the
`text` field may be absent (`tab.text || ''`). -/
structure DocTab where
  text : Option String
deriving DecidableEq

/-- MIME types searched by `searchFiles` (drive.service.ts lines 40-44). -/
def mimeTypes : List String :=
  ["application/vnd.google-apps.document",
   "application/vnd.google-apps.spreadsheet",
   "application/vnd.google-apps.presentation"]

/-- The `mimeTypeQuery` string of drive.service.ts line 47. -/
def mimeTypeQuery : String :=
  joinSep " or " (mimeTypes.map (fun t => "mimeType='" ++ t ++ "'"))

/-- The `searchQuery` string built by `searchFiles` (drive.service.ts
line 48): the caller's query is interpolated verbatim into the Drive
query-language string, with no escaping. -/
def searchQuery (query : String) : String :=
  "(" ++ mimeTypeQuery ++ ") and (name contains '" ++ query ++
  "' or fullText contains '" ++ query ++ "') and trashed=false"

/-- Embedding of `searchFiles` from src/services/drive.service.ts
(lines 35-63): build the query string, cap the page size at 20, and call
the Drive files.list endpoint (the `store` oracle); errors are rethrown. -/
def searchFiles (store : String → Nat → Except String (List FileInfo))
    (query : String) (maxResults : Nat) : Except String (List FileInfo) :=
  store (searchQuery query) (min maxResults 20)

/-- Content fetch of the per-candidate analysis task: the mimeType switch
of searchFilesWithContentAnalysis (drive.service.ts lines 99-122),
returning the extracted content together with the display type tag. The
three per-format fetches are oracles for the Docs/Sheets/Slides services
(each may throw). -/
def fetchContent (getDocTabs : String → Except String (List DocTab))
    (getSpreadsheetText : String → Except String String)
    (getPresentationTextSvc : String → Except String String)
    (file : FileInfo) : Except String (String × String) :=
  if file.mimeType = "application/vnd.google-apps.document" then
    (getDocTabs file.id).map (fun tabs =>
      (joinSep " " (tabs.map (fun tab => tab.text.getD "")), "Google Document"))
  else if file.mimeType = "application/vnd.google-apps.spreadsheet" then
    (getSpreadsheetText file.id).map (fun content => (content, "Google Spreadsheet"))
  else if file.mimeType = "application/vnd.google-apps.presentation" then
    (getPresentationTextSvc file.id).map (fun content => (content, "Google Slides"))
  else
    Except.ok (file.name, "Unknown")

/-- Body of the per-candidate analysis task (the try block of
drive.service.ts lines 94-138): fetch content, compute the relevance score
(which may itself throw on an invalid regex term), generate the summary,
and assemble the ScoredResult. -/
def analyzePipeline (getDocTabs : String → Except String (List DocTab))
    (getSpreadsheetText : String → Except String String)
    (getPresentationTextSvc : String → Except String String)
    (query : String) (file : FileInfo) : Except String ScoredResult := do
  let (content, type) ← fetchContent getDocTabs getSpreadsheetText getPresentationTextSvc file
  let relevanceScore ←
    match calculateRelevanceScore query file.name content with
    | Except.ok n => Except.ok n
    | Except.error _ => Except.error "SyntaxError"
  let summary := generateSummary content file.name
  return { id := file.id, name := file.name, link := file.webViewLink, type := type,
           modifiedTime := file.modifiedTime, relevanceScore := relevanceScore,
           summary := summary }

/-- The fallback ScoredResult built by the catch branch of the
per-candidate task (drive.service.ts lines 139-151): metadata passed
through, type "Error", score 0, fixed unavailable-content summary. -/
def errorScoredResult (file : FileInfo) : ScoredResult :=
  { id := file.id, name := file.name, link := file.webViewLink, type := "Error",
    modifiedTime := file.modifiedTime, relevanceScore := 0,
    summary := "ファイルの内容を取得できませんでした" }

/-- One complete per-candidate task: the pipeline with its local catch,
never propagating an exception. -/
def analyzeCandidate (getDocTabs : String → Except String (List DocTab))
    (getSpreadsheetText : String → Except String String)
    (getPresentationTextSvc : String → Except String String)
    (query : String) (file : FileInfo) : ScoredResult :=
  match analyzePipeline getDocTabs getSpreadsheetText getPresentationTextSvc query file with
  | Except.ok r => r
  | Except.error _ => errorScoredResult file

/-- Embedding of `searchFilesWithContentAnalysis` from
src/services/drive.service.ts (lines 66-167): retrieve candidates (failures
there are rethrown), short-circuit on an empty candidate set, run the
per-candidate analysis task for every candidate (the concurrent fan-out has
no shared state, so the join of the tasks equals the map), sort by
relevance score descending with the stable ES2019 sort, and assemble the
response. -/
def searchFilesWithContentAnalysis
    (store : String → Nat → Except String (List FileInfo))
    (getDocTabs : String → Except String (List DocTab))
    (getSpreadsheetText : String → Except String String)
    (getPresentationTextSvc : String → Except String String)
    (query : String) (maxResults : Nat) : Except String RankedResponse := do
  let searchResults ← searchFiles store query maxResults
  if searchResults.length = 0 then
    return { query := query, totalCount := 0, results := [] }
  let analyzedResults := searchResults.map
    (analyzeCandidate getDocTabs getSpreadsheetText getPresentationTextSvc query)
  let sortedResults := sortByKeyDesc (fun r => r.relevanceScore) analyzedResults
  return { query := query, totalCount := sortedResults.length, results := sortedResults }

/-- Modelled from the Drive query-language grammar (a store-side collaborator,
not part of src/): reader for the body of a single-quoted string literal. A
backslash escapes the following character; the literal ends at the first
unescaped quote; a missing closing quote means the query is malformed. -/
def readQuotedAux : List Char → Option (List Char)
  | [] => none
  | c :: rest =>
    if c = '\\' then
      match rest with
      | [] => none
      | d :: rest2 => (readQuotedAux rest2).map (fun l => d :: l)
    else if c = '\'' then some []
    else (readQuotedAux rest).map (fun l => c :: l)

/-- The fixed text preceding the name-contains literal in every string
built by `searchQuery`. -/
def nameContainsMarker : String :=
  "(" ++ mimeTypeQuery ++ ") and (name contains '"

/-- The file-name substring the store would match against, read back from a
built query string: the body of the single-quoted literal following
`name contains '`, under the store's quoting rules. -/
def extractNameContainsArg (s : String) : Option String :=
  if prefB nameContainsMarker.data s.data then
    (readQuotedAux (s.data.drop nameContainsMarker.data.length)).map String.mk
  else
    none

/-- One entry of a tool response's content array. -/
structure ContentItem where
  type : String
  text : String
deriving DecidableEq

/-- Tool response as produced by src/tools/common.ts; a success response
carries no isError flag, modelled as `isError = false`. -/
structure ToolResponse where
  content : List ContentItem
  isError : Bool
deriving DecidableEq

/-- The debug JSON produced by `checkAuthAndReturnError`
(src/tools/common.ts lines 38-60): JSON.stringify of the fixed debug-info
object with two-space indentation; the timestamp (`new Date().toISOString()`,
an effect) is a parameter. -/
def authErrorDebugInfo (timestamp : String) : String :=
  "\x7b\n  \"error\": \"Google認証に失敗しました\",\n  \"cause\": \"getAuthClient()がnullを返しました\",\n  \"possibleReasons\": [\n    \"サービスアカウントキーファイルが見つからない\",\n    \"サービスアカウントキーの権限が不正\",\n    \"Google APIの認証プロセスでエラーが発生\",\n    \"MCPサーバー内の認証フローに問題\"\n  ],\n  \"debugSteps\": [\n    \"1. credentials/service-account-key.json の存在確認\",\n    \"2. サービスアカウントの権限確認\",\n    \"3. サーバーログの確認\",\n    \"4. 直接認証テストとの比較\"\n  ],\n  \"timestamp\": \"" ++ timestamp ++ "\"\n\x7d"

/-- The authentication-failure response returned for a null credential
handle (src/tools/common.ts lines 56-64). -/
def authErrorResponse (timestamp : String) : ToolResponse :=
  { content := [{ type := "text",
                  text := "認証エラー詳細:\n" ++ authErrorDebugInfo timestamp }],
    isError := true }

/-- Embedding of `checkAuthAndReturnError` from src/tools/common.ts
(lines 30-69): a null handle yields the error response, any other handle
yields null (modelled by `Option`). -/
def checkAuthAndReturnError {α : Type} (timestamp : String) (auth : Option α) :
    Option ToolResponse :=
  match auth with
  | none => some (authErrorResponse timestamp)
  | some _ => none

/-- Embedding of `createErrorResponse` from src/tools/common.ts for the
call sites that pass a caught error value. -/
def createErrorResponse (errorMessage : String) (error : String) : ToolResponse :=
  { content := [{ type := "text", text := errorMessage ++ ": " ++ error }],
    isError := true }

/-- Embedding of `createSuccessResponse` from src/tools/common.ts, applied
to an already-serialized JSON text (the JSON.stringify step is performed by
the caller-specific serializers below). -/
def createSuccessResponseText (text : String) : ToolResponse :=
  { content := [{ type := "text", text := text }], isError := false }

/-- Escaping of one character inside a JSON string literal, as performed by
JSON.stringify for the strings this code produces. -/
def jsonEscapeChar (c : Char) : String :=
  if c = '"' then "\\\""
  else if c = '\\' then "\\\\"
  else if c = '\n' then "\\n"
  else if c = '\r' then "\\r"
  else if c = '\t' then "\\t"
  else String.mk [c]

/-- JSON string literal for `s`. -/
def jsonStr (s : String) : String :=
  "\"" ++ joinSep "" (s.data.map jsonEscapeChar) ++ "\""

/-- The serialized success payload of the g_drive_search_files tool
(JSON.stringify with two-space indentation of the object literal at
src/tools/drive.tools.ts lines 90-95). -/
def searchSuccessText (query : String) (totalCount : Nat) (results : String) : String :=
  "\x7b\n  \"status\": \"success\",\n  \"query\": " ++ jsonStr query ++
  ",\n  \"totalCount\": " ++ toString totalCount ++
  ",\n  \"results\": " ++ jsonStr results ++ "\n\x7d"

/-- Outcome of one tool invocation: the response returned to the protocol
layer together with the number of store (Drive API) calls performed. -/
structure HandlerOutcome where
  response : ToolResponse
  storeCalls : Nat
deriving DecidableEq

/-- Embedding of the g_drive_search_files tool handler from
src/tools/drive.tools.ts (lines 63-99): check the credential handle, then
search (one store call) and render the file list, converting a thrown
search error into an error response. `timestamp` feeds the auth-error
debug text; `storeCalls` counts calls of the Drive files.list oracle. -/
def gDriveSearchFilesHandler {α : Type} (timestamp : String) (auth : Option α)
    (store : String → Nat → Except String (List FileInfo)) (query : String) :
    HandlerOutcome :=
  match checkAuthAndReturnError timestamp auth with
  | some authError => { response := authError, storeCalls := 0 }
  | none =>
    match searchFiles store query 10 with
    | Except.ok files =>
      let fileList := joinSep "\n" (files.map (fun file =>
        let fileName := if file.name = "" then "名前なし" else file.name
        let mimeType := if file.mimeType = "" then "unknown" else file.mimeType
        if file.webViewLink ≠ "" then
          "[" ++ fileName ++ "](" ++ file.webViewLink ++ ") (" ++ mimeType ++ ")"
        else
          fileName ++ " (" ++ mimeType ++ ")"))
      { response := createSuccessResponseText
          (searchSuccessText query files.length
            ("Found " ++ toString files.length ++ " files:\n" ++ fileList)),
        storeCalls := 1 }
    | Except.error e =>
      { response := createErrorResponse "ファイル検索に失敗しました" e, storeCalls := 1 }

/-- Text run of a Slides API text element (`textRun.content`; an absent or
empty content string is falsy and filtered out). -/
structure TextRun where
  content : String
deriving DecidableEq

/-- Text element of a Slides API shape or table cell. -/
structure TextElement where
  textRun : Option TextRun
deriving DecidableEq

/-- The `text` object of a shape or table cell; `textElements` may be
absent. -/
structure ShapeText where
  textElements : Option (List TextElement)
deriving DecidableEq

/-- Shape of a slide page element. -/
structure Shape where
  shapeType : String
  text : Option ShapeText
deriving DecidableEq

/-- Table cell of a slide table. -/
structure TableCell where
  text : Option ShapeText
deriving DecidableEq

/-- Table row of a slide table; `tableCells` may be absent. -/
structure TableRow where
  tableCells : Option (List TableCell)
deriving DecidableEq

/-- Table page element. -/
structure Table where
  tableRows : Option (List TableRow)
deriving DecidableEq

/-- Page element of a slide or notes page: a shape and/or a table. -/
structure PageElement where
  shape : Option Shape
  table : Option Table
deriving DecidableEq

/-- Notes page of a slide. -/
structure NotesPage where
  pageElements : Option (List PageElement)
deriving DecidableEq

/-- Slide properties carrying the notes page. -/
structure SlideProperties where
  notesPage : Option NotesPage
deriving DecidableEq

/-- One slide: page elements and slide properties. -/
structure Slide where
  pageElements : Option (List PageElement)
  slideProperties : Option SlideProperties
deriving DecidableEq

/-- A presentation as returned by the Slides API fetch: optional title and
optional slide list. -/
structure Presentation where
  title : Option String
  slides : Option (List Slide)
deriving DecidableEq

/-- Concatenation of the text-run contents of a text-element list after the
source's filter `textElement.textRun && textElement.textRun.content`. -/
def textElementsContent (tes : List TextElement) : String :=
  joinSep "" ((tes.filter (fun te =>
    match te.textRun with
    | some tr => tr.content ≠ ""
    | none => false)).map (fun te =>
    match te.textRun with
    | some tr => tr.content
    | none => ""))

/-- The source predicate
`element.shape && element.shape.shapeType === 'TEXT_BOX' &&
element.shape.text && element.shape.text.textElements` used both for the
slide-title search and for notes extraction. -/
def isTextBoxWithText (e : PageElement) : Bool :=
  match e.shape with
  | some sh =>
    sh.shapeType = "TEXT_BOX" &&
      (match sh.text with
       | some t => t.textElements.isSome
       | none => false)
  | none => false

/-- Text elements reachable from a page element's shape (empty when any
level is absent). -/
def shapeTextElements (e : PageElement) : List TextElement :=
  match e.shape with
  | some sh =>
    match sh.text with
    | some t => t.textElements.getD []
    | none => []
  | none => []

/-- The slide title detected by `getPresentationText` in src/index.ts
(lines 1390-1408): the trimmed joined text of the first TEXT_BOX page
element carrying text elements, or the empty string. -/
def slideTitleOf (slide : Slide) : String :=
  match slide.pageElements with
  | some (e :: es) =>
    match (e :: es).find? isTextBoxWithText with
    | some titleElement =>
      let titleText := textElementsContent (shapeTextElements titleElement)
      if (jsTrim titleText).data.length ≠ 0 then jsTrim titleText else ""
    | none => ""
  | _ => ""

/-- Text contributed by one table cell (src/index.ts lines 1430-1438). -/
def tableCellText (cell : TableCell) : String :=
  match cell.text with
  | some t =>
    match t.textElements with
    | some tes => textElementsContent tes
    | none => ""
  | none => ""

/-- Text contributed by one table row: the nonblank cell texts joined by
the pipe separator, followed by a newline when the row is nonblank
(src/index.ts lines 1427-1446). -/
def tableRowText (row : TableRow) : String :=
  match row.tableCells with
  | some cells =>
    let rowText := joinSep " | "
      ((cells.map tableCellText).filter (fun t => (jsTrim t).data.length ≠ 0))
    if (jsTrim rowText).data.length ≠ 0 then rowText ++ "\n" else ""
  | none => ""

/-- Body text contributed by one page element of a slide: the shape text
(when nonblank and different from the already-printed slide title) followed
by the table rows (src/index.ts lines 1411-1448). -/
def pageElementText (slideTitle : String) (e : PageElement) : String :=
  let shapePart :=
    match e.shape with
    | some sh =>
      match sh.text with
      | some t =>
        match t.textElements with
        | some tes =>
          let elementText := textElementsContent tes
          if (jsTrim elementText).data.length ≠ 0 ∧ jsTrim elementText ≠ slideTitle then
            elementText
          else ""
        | none => ""
      | none => ""
    | none => ""
  let tablePart :=
    match e.table with
    | some tb =>
      match tb.tableRows with
      | some rows => joinSep "" (rows.map tableRowText)
      | none => ""
    | none => ""
  shapePart ++ tablePart

/-- Speaker-notes text of a slide: the joined texts of the notes page's
TEXT_BOX elements, blank entries dropped (src/index.ts lines 1452-1466). -/
def slideNotesText (slide : Slide) : String :=
  match slide.slideProperties with
  | some sp =>
    match sp.notesPage with
    | some np =>
      match np.pageElements with
      | some pes =>
        joinSep "\n"
          (((pes.filter isTextBoxWithText).map (fun e =>
            textElementsContent (shapeTextElements e))).filter
            (fun t => (jsTrim t).data.length ≠ 0))
      | none => ""
    | none => ""
  | none => ""

/-- Full text of one slide as appended by the forEach body of
`getPresentationText` in src/index.ts (lines 1385-1474): numbered header,
optional title line, page-element bodies, optional notes block, trailing
blank line. -/
def renderSlide (index : Nat) (slide : Slide) : String :=
  let header := "===== スライド " ++ toString (index + 1) ++ " =====\n"
  let slideTitle := slideTitleOf slide
  let titleLine := if slideTitle ≠ "" then "タイトル: " ++ slideTitle ++ "\n" else ""
  let body :=
    match slide.pageElements with
    | some pes => joinSep "" (pes.map (pageElementText slideTitle))
    | none => ""
  let notes := slideNotesText slide
  let notesPart :=
    if (jsTrim notes).data.length ≠ 0 then "\nノート:\n" ++ jsTrim notes ++ "\n" else ""
  header ++ titleLine ++ body ++ notesPart ++ "\n\n"

/-- Embedding of `getPresentationText` from src/index.ts (lines 1366-1481),
the presentation text extractor described by the specification (slide
titles, pipe-joined table rows, a notes marker, and a fixed notice for a
presentation without slides). The network fetch is factored out: the
function consumes the fetched presentation; the try/catch of the source
only rethrows fetch errors, so the extraction itself is total. -/
def getPresentationText (p : Presentation) : String :=
  let extractedText :=
    match p.title with
    | some t => if t ≠ "" then "タイトル: " ++ t ++ "\n\n" else ""
    | none => ""
  match p.slides with
  | none => extractedText ++ "スライドが存在しません。"
  | some [] => extractedText ++ "スライドが存在しません。"
  | some slides =>
    extractedText ++ joinSep "" (slides.enum.map (fun pr => renderSlide pr.1 pr.2))

/-- The content contribution of one query term inside the scorer: twice the
global regex match count of the raw term in the lowercased text (the
`score += contentMatches * 2` part of `scoreTermStep`). -/
def termContentContribution (term text : String) : Except Unit Nat :=
  (contentMatchCount term (jsLower text)).map (fun m => m * 2)

/-- Boolean suffix test on strings (via reversed character lists). -/
def strEndsWith (s suffixPart : String) : Bool :=
  prefB suffixPart.data.reverse s.data.reverse


/-- Success test for `Except` results. -/
def exceptIsOk {ε α : Type} : Except ε α → Bool
  | Except.ok _ => true
  | Except.error _ => false

/-- Sample candidate metadata: a spreadsheet matching the sample query. -/
def sampleFile1 : FileInfo :=
  { id := "1", name := "Q1 Budget", mimeType := "application/vnd.google-apps.spreadsheet",
    createdTime := "c1", modifiedTime := "t1", webViewLink := "l1", iconLink := "i1" }

/-- Sample candidate metadata: a spreadsheet with unrelated content. -/
def sampleFile2 : FileInfo :=
  { id := "2", name := "notes", mimeType := "application/vnd.google-apps.spreadsheet",
    createdTime := "c2", modifiedTime := "t2", webViewLink := "l2", iconLink := "i2" }

/-- Sample candidate metadata: a presentation whose content fetch fails. -/
def sampleFile3 : FileInfo :=
  { id := "3", name := "deck", mimeType := "application/vnd.google-apps.presentation",
    createdTime := "c3", modifiedTime := "t3", webViewLink := "l3", iconLink := "i3" }

/-- Sample metadata-search oracle returning the three sample candidates. -/
def sampleStore : String → Nat → Except String (List FileInfo) :=
  fun _ _ => Except.ok [sampleFile1, sampleFile2, sampleFile3]

/-- Sample Docs-service oracle (always failing; unused by the samples). -/
def sampleDocTabs : String → Except String (List DocTab) :=
  fun _ => Except.error "unavailable"

/-- Sample Sheets-service oracle with fixed cell text per file id. -/
def sampleSheetText : String → Except String String :=
  fun id => if id = "1" then Except.ok "budget forecast" else Except.ok "x"

/-- Sample Slides-service oracle (always failing, as for a revoked file). -/
def samplePresText : String → Except String String :=
  fun _ => Except.error "unavailable"

theorem length_insertByKey {α : Type} (key : α → Int) (x : α) (l : List α) :
    (insertByKey key x l).length = l.length + 1 := by
  induction l with
  | nil => rfl
  | cons y ys ih =>
    simp only [insertByKey]
    split
    · simp [ih]
    · simp

theorem length_foldl_insertByKey {α : Type} (key : α → Int) (l acc : List α) :
    (l.foldl (fun a x => insertByKey key x a) acc).length = acc.length + l.length := by
  induction l generalizing acc with
  | nil => simp
  | cons x xs ih =>
    simp only [List.foldl_cons, List.length_cons]
    rw [ih, length_insertByKey]
    omega

theorem length_sortByKeyDesc {α : Type} (key : α → Int) (l : List α) :
    (sortByKeyDesc key l).length = l.length := by
  simpa using length_foldl_insertByKey key l []

theorem perm_insertByKey {α : Type} (key : α → Int) (x : α) (l : List α) :
    (insertByKey key x l).Perm (x :: l) := by
  induction l with
  | nil => exact List.Perm.refl _
  | cons y ys ih =>
    simp only [insertByKey]
    split
    · exact (ih.cons y).trans (List.Perm.swap x y ys)
    · exact List.Perm.refl _

theorem perm_foldl_insertByKey {α : Type} (key : α → Int) (l acc : List α) :
    (l.foldl (fun a x => insertByKey key x a) acc).Perm (acc ++ l) := by
  induction l generalizing acc with
  | nil => simp
  | cons x xs ih =>
    simp only [List.foldl_cons]
    refine ((ih (insertByKey key x acc)).trans ?_).trans List.perm_middle.symm
    exact ((perm_insertByKey key x acc).append_right xs)

theorem perm_sortByKeyDesc {α : Type} (key : α → Int) (l : List α) :
    (sortByKeyDesc key l).Perm l := by
  simpa using perm_foldl_insertByKey key l []

theorem pairwise_insertByKey {α : Type} (key : α → Int) (x : α) {l : List α}
    (h : l.Pairwise (fun a b => key b ≤ key a)) :
    (insertByKey key x l).Pairwise (fun a b => key b ≤ key a) := by
  induction l with
  | nil => simp [insertByKey]
  | cons y ys ih =>
    rw [List.pairwise_cons] at h
    obtain ⟨hy, hys⟩ := h
    simp only [insertByKey]
    split
    case isTrue hxy =>
      rw [List.pairwise_cons]
      refine ⟨?_, ih hys⟩
      intro b hb
      rcases List.mem_cons.mp ((perm_insertByKey key x ys).mem_iff.mp hb) with rfl | hbys
      · exact hxy
      · exact hy b hbys
    case isFalse hxy =>
      rw [List.pairwise_cons]
      refine ⟨?_, List.pairwise_cons.mpr ⟨hy, hys⟩⟩
      intro b hb
      rcases List.mem_cons.mp hb with rfl | hbys
      · exact le_of_lt (lt_of_not_le hxy)
      · exact le_trans (hy b hbys) (le_of_lt (lt_of_not_le hxy))

theorem pairwise_foldl_insertByKey {α : Type} (key : α → Int) (l : List α)
    {acc : List α} (hacc : acc.Pairwise (fun a b => key b ≤ key a)) :
    (l.foldl (fun a x => insertByKey key x a) acc).Pairwise (fun a b => key b ≤ key a) := by
  induction l generalizing acc with
  | nil => simpa using hacc
  | cons x xs ih =>
    simp only [List.foldl_cons]
    exact ih (pairwise_insertByKey key x hacc)

theorem pairwise_sortByKeyDesc {α : Type} (key : α → Int) (l : List α) :
    (sortByKeyDesc key l).Pairwise (fun a b => key b ≤ key a) := by
  exact pairwise_foldl_insertByKey key l List.Pairwise.nil

theorem filter_insertByKey {α : Type} (key : α → Int) (x : α) (k : Int) {l : List α}
    (hsort : l.Pairwise (fun a b => key b ≤ key a)) :
    (insertByKey key x l).filter (fun a => key a == k) =
      l.filter (fun a => key a == k) ++ (if key x == k then [x] else []) := by
  induction l with
  | nil =>
    simp [insertByKey, List.filter_cons]
  | cons y ys ih =>
    rw [List.pairwise_cons] at hsort
    obtain ⟨hy, hys⟩ := hsort
    simp only [insertByKey]
    split
    case isTrue hxy =>
      rw [List.filter_cons, List.filter_cons]
      by_cases hyk : key y == k <;> simp [hyk, ih hys]
    case isFalse hxy =>
      by_cases hxk : key x == k
      · have hyx : key y < key x := lt_of_not_le hxy
        have hfilter : (y :: ys).filter (fun a => key a == k) = [] := by
          rw [List.filter_eq_nil_iff]
          intro b hb
          have hble : key b ≤ key y := by
            rcases List.mem_cons.mp hb with rfl | hbys
            · exact le_refl _
            · exact hy b hbys
          have hbk : key b < k := by
            have hxkeq : key x = k := by exact_mod_cast beq_iff_eq.mp hxk
            omega
          simp only [beq_iff_eq]
          omega
        rw [List.filter_cons, if_pos hxk, hfilter]
        simp [hxk]
      · rw [List.filter_cons, if_neg hxk]
        simp [hxk]

theorem filter_foldl_insertByKey {α : Type} (key : α → Int) (l : List α) (k : Int) :
    ∀ acc : List α, acc.Pairwise (fun a b => key b ≤ key a) →
      (l.foldl (fun a x => insertByKey key x a) acc).filter (fun a => key a == k) =
        acc.filter (fun a => key a == k) ++ l.filter (fun a => key a == k) := by
  induction l with
  | nil => intro acc _; simp
  | cons x xs ih =>
    intro acc hacc
    simp only [List.foldl_cons]
    rw [ih (insertByKey key x acc) (pairwise_insertByKey key x hacc),
        filter_insertByKey key x k hacc, List.filter_cons]
    split <;> simp

theorem filter_sortByKeyDesc {α : Type} (key : α → Int) (l : List α) (k : Int) :
    (sortByKeyDesc key l).filter (fun a => key a == k) =
      l.filter (fun a => key a == k) := by
  simpa using filter_foldl_insertByKey key l k [] List.Pairwise.nil

theorem searchAnalysis_eq_of_store_ok
    (store : String → Nat → Except String (List FileInfo))
    (getDocTabs : String → Except String (List DocTab))
    (getSpreadsheetText : String → Except String String)
    (getPresentationTextSvc : String → Except String String)
    (query : String) (maxResults : Nat) (cands : List FileInfo)
    (hstore : searchFiles store query maxResults = Except.ok cands) :
    searchFilesWithContentAnalysis store getDocTabs getSpreadsheetText
        getPresentationTextSvc query maxResults =
      Except.ok
        (if cands.length = 0 then
          { query := query, totalCount := 0, results := [] }
        else
          { query := query,
            totalCount := (sortByKeyDesc (fun r => r.relevanceScore)
              (cands.map (analyzeCandidate getDocTabs getSpreadsheetText
                getPresentationTextSvc query))).length,
            results := sortByKeyDesc (fun r => r.relevanceScore)
              (cands.map (analyzeCandidate getDocTabs getSpreadsheetText
                getPresentationTextSvc query)) }) := by
  unfold searchFilesWithContentAnalysis
  rw [hstore]
  by_cases h : cands.length = 0 <;>
    simp [h, Bind.bind, Except.bind, Pure.pure, Except.pure]

theorem parseJsRegex_of_no_meta {l : List Char} (h : ∀ c ∈ l, jsRegexMeta c = false) :
    parseJsRegex l = Except.ok (l.map JsRegexToken.lit) := by
  induction l with
  | nil => rfl
  | cons c rest ih =>
    have hc := h c (List.mem_cons_self c rest)
    have hrest : ∀ d ∈ rest, jsRegexMeta d = false :=
      fun d hd => h d (List.mem_cons_of_mem c hd)
    have hcdot : ¬ (c = '.') := by
      intro heq
      subst heq
      exact absurd hc (by decide)
    simp [parseJsRegex, hcdot, hc, ih hrest, Except.map]

theorem matchesAt_lit_map (l : List Char) : ∀ cs : List Char,
    matchesAt (l.map JsRegexToken.lit) cs = prefB l cs := by
  induction l with
  | nil => intro cs; rfl
  | cons c rest ih =>
    intro cs
    cases cs with
    | nil => rfl
    | cons d ds => simp [matchesAt, prefB, tokMatch, ih]

theorem jsCountAux_lit_map (l : List Char) : ∀ (fuel : Nat) (cs : List Char),
    jsCountAux fuel (l.map JsRegexToken.lit) cs = countOccurrencesAux fuel l cs := by
  intro fuel
  induction fuel with
  | zero => intro cs; cases l <;> rfl
  | succ fuel ih =>
    intro cs
    cases cs with
    | nil => cases l <;> rfl
    | cons c rest =>
      simp only [jsCountAux, countOccurrencesAux, matchesAt_lit_map, List.length_map]
      split <;> simp [ih]

theorem contentMatchCount_of_no_meta {term : String} (text : String)
    (h : ∀ c ∈ term.data, jsRegexMeta c = false) :
    contentMatchCount term text = Except.ok (countOccurrencesStr term text) := by
  unfold contentMatchCount countOccurrencesStr
  rw [parseJsRegex_of_no_meta h]
  simp [Except.map, jsCountAux_lit_map]

theorem scoreTermStep_ok_of_no_meta (query fileNameLower contentLower : String)
    (acc : Int) {term : String} (h : ∀ c ∈ term.data, jsRegexMeta c = false) :
    ∃ n, scoreTermStep query fileNameLower contentLower acc term = Except.ok n := by
  unfold scoreTermStep
  rw [contentMatchCount_of_no_meta contentLower h]
  exact ⟨_, rfl⟩

theorem foldlM_scoreTermStep_ok (query fileNameLower contentLower : String)
    (ts : List String) (h : ∀ t ∈ ts, ∀ c ∈ t.data, jsRegexMeta c = false) :
    ∀ acc : Int,
      ∃ n, ts.foldlM (scoreTermStep query fileNameLower contentLower) acc = Except.ok n := by
  induction ts with
  | nil => intro acc; exact ⟨acc, rfl⟩
  | cons t ts ih =>
    intro acc
    obtain ⟨m, hm⟩ := scoreTermStep_ok_of_no_meta query fileNameLower contentLower acc
      (h t (List.mem_cons_self t ts))
    obtain ⟨n, hn⟩ := ih (fun u hu c hc => h u (List.mem_cons_of_mem t hu) c hc) m
    refine ⟨n, ?_⟩
    rw [List.foldlM_cons, hm]
    simpa [Bind.bind, Except.bind] using hn

theorem prefB_append (l r : List Char) : prefB l (l ++ r) = true := by
  induction l with
  | nil => rfl
  | cons c cs ih => simp [prefB, ih]

theorem readQuotedAux_append {l : List Char} (tail : List Char)
    (h : ∀ c ∈ l, c ≠ '\'' ∧ c ≠ '\\') :
    readQuotedAux (l ++ '\'' :: tail) = some l := by
  induction l with
  | nil =>
    rw [List.nil_append, readQuotedAux.eq_def]
    simp
  | cons c cs ih =>
    obtain ⟨h1, h2⟩ := h c (List.mem_cons_self c cs)
    rw [List.cons_append, readQuotedAux.eq_def]
    simp [h2, h1, ih (fun d hd => h d (List.mem_cons_of_mem c hd))]

theorem strEndsWith_append (a b : String) : strEndsWith (a ++ b) b = true := by
  unfold strEndsWith
  rw [String.data_append, List.reverse_append]
  exact prefB_append b.data.reverse a.data.reverse

/-- C3 counterexample: on Scenario A's inputs (query "budget", file name
"Q1 Budget", extracted text "budget forecast" containing "budget" once) the
scorer does not return 12: the full original query is a substring of the
content, so the +20 bonus clause fires in addition to the +10 filename hit
and the +2 single occurrence. -/
theorem C3_score_not_12 :
    ¬ (calculateRelevanceScore "budget" "Q1 Budget" "budget forecast" = Except.ok 12) := by
  decide

/-- C3 as amended: on Scenario A's inputs the scorer returns exactly 32 =
10 (filename substring) + 2 (one text occurrence) + 20 (the lowercased
content contains the full query). -/
theorem C3_score_is_32 :
    calculateRelevanceScore "budget" "Q1 Budget" "budget forecast" = Except.ok 32 := by
  decide

/-- C4 counterexample: the per-term text contribution is not 2 times the
literal-substring occurrence count for every term — the term "." is
interpreted as regex syntax, matching any character: on text "ab" the
contribution is 4 although "." never occurs literally. -/
theorem C4_contribution_not_literal :
    ¬ (termContentContribution "." "ab" =
        Except.ok (countOccurrencesStr "." (jsLower "ab") * 2)) := by
  decide

/-- C4 as amended: for every term containing no regex syntax character,
the term's text contribution equals exactly 2 times the number of
non-overlapping literal-substring occurrences of the term in the lowercased
text; terms containing regex syntax characters are instead interpreted as
regex patterns (or throw), because the code does not escape the term. -/
theorem C4_contribution_literal_when_no_meta (term text : String)
    (h : ∀ c ∈ term.data, jsRegexMeta c = false) :
    termContentContribution term text =
      Except.ok (countOccurrencesStr term (jsLower text) * 2) := by
  unfold termContentContribution
  rw [contentMatchCount_of_no_meta (jsLower text) h]
  rfl

/-- C4 witness: the amended statement evaluated for the metacharacter-free
term "budget" on the text "Budget budget" (two literal occurrences). -/
theorem C4_contribution_literal_witness :
    (∀ c ∈ "budget".data, jsRegexMeta c = false) ∧
    termContentContribution "budget" "Budget budget" =
      Except.ok (countOccurrencesStr "budget" (jsLower "Budget budget") * 2) :=
  ⟨by decide, C4_contribution_literal_when_no_meta "budget" "Budget budget" (by decide)⟩

/-- C5 counterexample: the scorer is not total: the query "(" is split into
the single term "(", whose RegExp construction throws a SyntaxError
(an unterminated group), so the scorer throws instead of returning an
integer. -/
theorem C5_scorer_throws_on_lparen :
    calculateRelevanceScore "(" "a" "b" = Except.error () := by
  decide

/-- C5 as amended: the scorer is a pure deterministic function that returns
an integer for every query all of whose whitespace-delimited lowercased
terms are free of regex syntax characters; a term containing regex syntax
(such as "(") can make it throw. -/
theorem C5_scorer_total_on_clean_queries (query fileName content : String)
    (h : ∀ t ∈ splitWs (jsLower query), ∀ c ∈ t.data, jsRegexMeta c = false) :
    exceptIsOk (calculateRelevanceScore query fileName content) = true := by
  unfold calculateRelevanceScore
  obtain ⟨n, hn⟩ :=
    foldlM_scoreTermStep_ok query (jsLower fileName) (jsLower content)
      (splitWs (jsLower query)) h 0
  rw [hn]
  rfl

/-- C5 witness: the amended statement evaluated on the two-term query
"budget q1". -/
theorem C5_scorer_total_witness :
    (∀ t ∈ splitWs (jsLower "budget q1"), ∀ c ∈ t.data, jsRegexMeta c = false) ∧
    exceptIsOk (calculateRelevanceScore "budget q1" "Q1 Budget" "budget forecast") = true :=
  ⟨by decide, C5_scorer_total_on_clean_queries "budget q1" "Q1 Budget" "budget forecast"
    (by decide)⟩

/-- C6 counterexample: a non-empty, non-whitespace text of at most 300
characters is not always returned trimmed: the text "..." consists only of
sentence delimiters, so the sentence split leaves no readable fragment and
the summarizer returns the fixed "no readable text" notice before ever
reaching the 300-character branch. -/
theorem C6_short_text_not_returned :
    (jsTrim "...").data.length ≠ 0 ∧ "...".data.length ≤ 300 ∧
    generateSummary "..." "report" ≠ jsTrim "..." := by
  decide

/-- C6 as amended: for every text that is not all whitespace, yields at
least one readable sentence fragment, and has at most 300 characters, the
summarizer returns exactly the trimmed input text. -/
theorem C6_short_text_roundtrip (content fileName : String)
    (h1 : (jsTrim content).data.length ≠ 0)
    (h2 : summarySentences content ≠ [])
    (h3 : content.data.length ≤ 300) :
    generateSummary content fileName = jsTrim content := by
  unfold generateSummary
  rw [if_neg h1]
  rw [if_neg (fun h0 => h2 (List.length_eq_zero.mp h0))]
  rw [if_pos h3]

/-- C6 witness: the amended statement evaluated on the 11-character text
" hi there. ". -/
theorem C6_short_text_roundtrip_witness :
    (jsTrim " hi there. ").data.length ≠ 0 ∧ summarySentences " hi there. " ≠ [] ∧
    " hi there. ".data.length ≤ 300 ∧
    generateSummary " hi there. " "report" = jsTrim " hi there. " :=
  ⟨by decide, by decide, by decide,
    C6_short_text_roundtrip " hi there. " "report" (by decide) (by decide) (by decide)⟩

/-- C7: for every presentation with zero slides (an absent or empty slide
list), the presentation text extractor returns a text ending in the fixed
"no slides" notice instead of throwing (the embedded extraction is a total
function of the fetched presentation). -/
theorem C7_no_slides_notice (p : Presentation)
    (h : p.slides = none ∨ p.slides = some []) :
    strEndsWith (getPresentationText p) "スライドが存在しません。" = true := by
  unfold getPresentationText
  rcases h with h | h <;> rw [h] <;> exact strEndsWith_append _ _

/-- C7 witness: the statement evaluated on a titled presentation with an
empty slide list. -/
theorem C7_no_slides_notice_witness :
    ((Presentation.mk (some "T") (some [])).slides = none ∨
      (Presentation.mk (some "T") (some [])).slides = some []) ∧
    strEndsWith (getPresentationText (Presentation.mk (some "T") (some [])))
      "スライドが存在しません。" = true :=
  ⟨Or.inr rfl, C7_no_slides_notice (Presentation.mk (some "T") (some [])) (Or.inr rfl)⟩

/-- C9: for every timestamp, store oracle and query, a null credential
handle makes `checkAuthAndReturnError` produce the error-flagged
authentication-failure response, and the g_drive_search_files handler
returns exactly that response while performing zero store calls. -/
theorem C9_null_auth_short_circuits (timestamp : String)
    (store : String → Nat → Except String (List FileInfo)) (query : String) :
    checkAuthAndReturnError timestamp (none : Option Unit) =
      some (authErrorResponse timestamp) ∧
    gDriveSearchFilesHandler timestamp (none : Option Unit) store query =
      { response := authErrorResponse timestamp, storeCalls := 0 } ∧
    (authErrorResponse timestamp).isError = true :=
  ⟨rfl, rfl, rfl⟩

/-- C10: when the per-candidate pipeline throws for a candidate, the
fallback ScoredResult preserves the candidate's id, name, link and
modifiedTime exactly as retrieved, and replaces only the type, the
relevance score and the summary with the fixed error values. -/
theorem C10_failure_frame (getDocTabs : String → Except String (List DocTab))
    (getSpreadsheetText : String → Except String String)
    (getPresentationTextSvc : String → Except String String)
    (query : String) (file : FileInfo) (e : String)
    (hfail : analyzePipeline getDocTabs getSpreadsheetText getPresentationTextSvc
      query file = Except.error e) :
    analyzeCandidate getDocTabs getSpreadsheetText getPresentationTextSvc query file =
      { id := file.id, name := file.name, link := file.webViewLink, type := "Error",
        modifiedTime := file.modifiedTime, relevanceScore := 0,
        summary := "ファイルの内容を取得できませんでした" } := by
  unfold analyzeCandidate
  rw [hfail]
  rfl

/-- C10 witness: the statement evaluated on the sample presentation whose
content fetch fails. -/
theorem C10_failure_frame_witness :
    analyzePipeline sampleDocTabs sampleSheetText samplePresText "budget" sampleFile3 =
      Except.error "unavailable" ∧
    analyzeCandidate sampleDocTabs sampleSheetText samplePresText "budget" sampleFile3 =
      { id := sampleFile3.id, name := sampleFile3.name, link := sampleFile3.webViewLink,
        type := "Error", modifiedTime := sampleFile3.modifiedTime, relevanceScore := 0,
        summary := "ファイルの内容を取得できませんでした" } :=
  ⟨by decide,
    C10_failure_frame sampleDocTabs sampleSheetText samplePresText "budget" sampleFile3
      "unavailable" (by decide)⟩

/-- C1: for every successful run of the ranking orchestrator whose
retrieval returned the candidate list `cands`, the response carries one
result per candidate (`length = totalCount = cands.length`, no candidate
dropped or duplicated), the results are sorted non-increasingly by
relevance score, and candidates with equal scores keep their retrieval
order (stability, stated as score-level filter preservation against the
analyzed candidates in retrieval order). -/
theorem C1_ranking_sorted_stable_complete
    (store : String → Nat → Except String (List FileInfo))
    (getDocTabs : String → Except String (List DocTab))
    (getSpreadsheetText : String → Except String String)
    (getPresentationTextSvc : String → Except String String)
    (query : String) (maxResults : Nat) (cands : List FileInfo) (resp : RankedResponse)
    (hstore : searchFiles store query maxResults = Except.ok cands)
    (hrun : searchFilesWithContentAnalysis store getDocTabs getSpreadsheetText
      getPresentationTextSvc query maxResults = Except.ok resp) :
    resp.results.length = resp.totalCount ∧
    resp.results.length = cands.length ∧
    resp.results.Pairwise (fun a b => b.relevanceScore ≤ a.relevanceScore) ∧
    ∀ s : Int,
      resp.results.filter (fun r => r.relevanceScore == s) =
        (cands.map (analyzeCandidate getDocTabs getSpreadsheetText
          getPresentationTextSvc query)).filter (fun r => r.relevanceScore == s) := by
  rw [searchAnalysis_eq_of_store_ok store getDocTabs getSpreadsheetText
    getPresentationTextSvc query maxResults cands hstore] at hrun
  have hresp := (Except.ok.inj hrun).symm
  by_cases h0 : cands.length = 0
  · rw [if_pos h0] at hresp
    have hc : cands = [] := List.length_eq_zero.mp h0
    subst hresp
    simp [hc]
  · rw [if_neg h0] at hresp
    subst hresp
    refine ⟨rfl, ?_, ?_, ?_⟩
    · rw [length_sortByKeyDesc, List.length_map]
    · exact pairwise_sortByKeyDesc _ _
    · intro s
      exact filter_sortByKeyDesc (fun r : ScoredResult => r.relevanceScore) _ s

set_option maxRecDepth 8000 in
/-- C1 witness: the statement evaluated on the three sample candidates (two
spreadsheets and one failing presentation), with the sortedness and
completeness conjuncts instantiated on the concrete response and the
stability conjunct instantiated at score 32. -/
theorem C1_ranking_witness :
    searchFiles sampleStore "budget" 10 =
      Except.ok [sampleFile1, sampleFile2, sampleFile3] ∧
    searchFilesWithContentAnalysis sampleStore sampleDocTabs sampleSheetText
        samplePresText "budget" 10 =
      Except.ok
        { query := "budget", totalCount := 3, results :=
          [{ id := "1", name := "Q1 Budget", link := "l1", type := "Google Spreadsheet",
             modifiedTime := "t1", relevanceScore := 32, summary := "budget forecast" },
           { id := "2", name := "notes", link := "l2", type := "Google Spreadsheet",
             modifiedTime := "t2", relevanceScore := 0, summary := "x" },
           { id := "3", name := "deck", link := "l3", type := "Error",
             modifiedTime := "t3", relevanceScore := 0,
             summary := "ファイルの内容を取得できませんでした" }] } ∧
    (RankedResponse.mk "budget" 3
      [{ id := "1", name := "Q1 Budget", link := "l1", type := "Google Spreadsheet",
         modifiedTime := "t1", relevanceScore := 32, summary := "budget forecast" },
       { id := "2", name := "notes", link := "l2", type := "Google Spreadsheet",
         modifiedTime := "t2", relevanceScore := 0, summary := "x" },
       { id := "3", name := "deck", link := "l3", type := "Error",
         modifiedTime := "t3", relevanceScore := 0,
         summary := "ファイルの内容を取得できませんでした" }]).results.length =
      [sampleFile1, sampleFile2, sampleFile3].length ∧
    (RankedResponse.mk "budget" 3
      [{ id := "1", name := "Q1 Budget", link := "l1", type := "Google Spreadsheet",
         modifiedTime := "t1", relevanceScore := 32, summary := "budget forecast" },
       { id := "2", name := "notes", link := "l2", type := "Google Spreadsheet",
         modifiedTime := "t2", relevanceScore := 0, summary := "x" },
       { id := "3", name := "deck", link := "l3", type := "Error",
         modifiedTime := "t3", relevanceScore := 0,
         summary := "ファイルの内容を取得できませんでした" }]).results.Pairwise
      (fun a b => b.relevanceScore ≤ a.relevanceScore) ∧
    (RankedResponse.mk "budget" 3
      [{ id := "1", name := "Q1 Budget", link := "l1", type := "Google Spreadsheet",
         modifiedTime := "t1", relevanceScore := 32, summary := "budget forecast" },
       { id := "2", name := "notes", link := "l2", type := "Google Spreadsheet",
         modifiedTime := "t2", relevanceScore := 0, summary := "x" },
       { id := "3", name := "deck", link := "l3", type := "Error",
         modifiedTime := "t3", relevanceScore := 0,
         summary := "ファイルの内容を取得できませんでした" }]).results.filter
        (fun r => r.relevanceScore == 32) =
      ([sampleFile1, sampleFile2, sampleFile3].map
        (analyzeCandidate sampleDocTabs sampleSheetText samplePresText "budget")).filter
        (fun r => r.relevanceScore == 32) := by
  have h := C1_ranking_sorted_stable_complete sampleStore sampleDocTabs sampleSheetText
    samplePresText "budget" 10 [sampleFile1, sampleFile2, sampleFile3]
    (RankedResponse.mk "budget" 3
      [{ id := "1", name := "Q1 Budget", link := "l1", type := "Google Spreadsheet",
         modifiedTime := "t1", relevanceScore := 32, summary := "budget forecast" },
       { id := "2", name := "notes", link := "l2", type := "Google Spreadsheet",
         modifiedTime := "t2", relevanceScore := 0, summary := "x" },
       { id := "3", name := "deck", link := "l3", type := "Error",
         modifiedTime := "t3", relevanceScore := 0,
         summary := "ファイルの内容を取得できませんでした" }])
    rfl (by decide)
  exact ⟨rfl, by decide, h.2.1, h.2.2.1, h.2.2.2 32⟩

/-- C2: when retrieval succeeds and the per-candidate pipeline throws for a
candidate `f`, the operation still returns a successful well-formed
response whose result list has one entry per candidate and contains the
fallback result for `f` — relevance score 0, type "Error", the fixed
unavailable-content summary — so the per-candidate error never reaches the
caller. -/
theorem C2_per_candidate_failure_isolated
    (store : String → Nat → Except String (List FileInfo))
    (getDocTabs : String → Except String (List DocTab))
    (getSpreadsheetText : String → Except String String)
    (getPresentationTextSvc : String → Except String String)
    (query : String) (maxResults : Nat) (cands : List FileInfo) (f : FileInfo) (e : String)
    (hstore : searchFiles store query maxResults = Except.ok cands)
    (hf : f ∈ cands)
    (hfail : analyzePipeline getDocTabs getSpreadsheetText getPresentationTextSvc
      query f = Except.error e) :
    searchFilesWithContentAnalysis store getDocTabs getSpreadsheetText
        getPresentationTextSvc query maxResults =
      Except.ok
        { query := query,
          totalCount := (sortByKeyDesc (fun r => r.relevanceScore)
            (cands.map (analyzeCandidate getDocTabs getSpreadsheetText
              getPresentationTextSvc query))).length,
          results := sortByKeyDesc (fun r => r.relevanceScore)
            (cands.map (analyzeCandidate getDocTabs getSpreadsheetText
              getPresentationTextSvc query)) } ∧
    (sortByKeyDesc (fun r => r.relevanceScore)
      (cands.map (analyzeCandidate getDocTabs getSpreadsheetText
        getPresentationTextSvc query))).length = cands.length ∧
    errorScoredResult f ∈ sortByKeyDesc (fun r => r.relevanceScore)
      (cands.map (analyzeCandidate getDocTabs getSpreadsheetText
        getPresentationTextSvc query)) ∧
    (errorScoredResult f).relevanceScore = 0 ∧
    (errorScoredResult f).type = "Error" ∧
    (errorScoredResult f).summary = "ファイルの内容を取得できませんでした" := by
  have hne : ¬ (cands.length = 0) := by
    intro h0
    rw [List.length_eq_zero] at h0
    subst h0
    exact absurd hf (List.not_mem_nil f)
  refine ⟨?_, ?_, ?_, rfl, rfl, rfl⟩
  · rw [searchAnalysis_eq_of_store_ok store getDocTabs getSpreadsheetText
      getPresentationTextSvc query maxResults cands hstore, if_neg hne]
  · rw [length_sortByKeyDesc, List.length_map]
  · refine ((perm_sortByKeyDesc _ _).mem_iff).mpr ?_
    refine List.mem_map.mpr ⟨f, hf, ?_⟩
    unfold analyzeCandidate
    rw [hfail]

set_option maxRecDepth 8000 in
/-- C2 witness: the statement evaluated on the three sample candidates, the
third of which (a presentation) has a failing content fetch. -/
theorem C2_per_candidate_failure_witness :
    searchFiles sampleStore "budget" 10 =
      Except.ok [sampleFile1, sampleFile2, sampleFile3] ∧
    sampleFile3 ∈ [sampleFile1, sampleFile2, sampleFile3] ∧
    analyzePipeline sampleDocTabs sampleSheetText samplePresText "budget" sampleFile3 =
      Except.error "unavailable" ∧
    (searchFilesWithContentAnalysis sampleStore sampleDocTabs sampleSheetText
        samplePresText "budget" 10 =
      Except.ok
        { query := "budget",
          totalCount := (sortByKeyDesc (fun r => r.relevanceScore)
            ([sampleFile1, sampleFile2, sampleFile3].map
              (analyzeCandidate sampleDocTabs sampleSheetText samplePresText
                "budget"))).length,
          results := sortByKeyDesc (fun r => r.relevanceScore)
            ([sampleFile1, sampleFile2, sampleFile3].map
              (analyzeCandidate sampleDocTabs sampleSheetText samplePresText
                "budget")) } ∧
    (sortByKeyDesc (fun r => r.relevanceScore)
      ([sampleFile1, sampleFile2, sampleFile3].map
        (analyzeCandidate sampleDocTabs sampleSheetText samplePresText
          "budget"))).length = [sampleFile1, sampleFile2, sampleFile3].length ∧
    errorScoredResult sampleFile3 ∈ sortByKeyDesc (fun r => r.relevanceScore)
      ([sampleFile1, sampleFile2, sampleFile3].map
        (analyzeCandidate sampleDocTabs sampleSheetText samplePresText "budget")) ∧
    (errorScoredResult sampleFile3).relevanceScore = 0 ∧
    (errorScoredResult sampleFile3).type = "Error" ∧
    (errorScoredResult sampleFile3).summary = "ファイルの内容を取得できませんでした") := by
  refine ⟨rfl, by decide, by decide, ?_⟩
  exact C2_per_candidate_failure_isolated sampleStore sampleDocTabs sampleSheetText
    samplePresText "budget" 10 [sampleFile1, sampleFile2, sampleFile3] sampleFile3
    "unavailable" rfl (by decide) (by decide)

set_option maxRecDepth 4000 in
/-- C8 counterexample: the retriever does not escape the store's
query-language special characters: the query containing a single quote,
"a'b", is interpolated verbatim, so the store would parse the name-contains
literal as "a" (the quote terminates the literal early) rather than the
whole query. -/
theorem C8_quote_breaks_literal :
    extractNameContainsArg (searchQuery "a'b") ≠ some "a'b" := by
  decide

/-- C8 as amended: the retriever embeds the query verbatim with no
escaping; only for queries containing neither a single quote nor a
backslash does the built store query carry the whole query as the
name-contains literal. -/
theorem C8_literal_roundtrip_when_no_specials (q : String)
    (h : ∀ c ∈ q.data, c ≠ '\'' ∧ c ≠ '\\') :
    extractNameContainsArg (searchQuery q) = some q := by
  obtain ⟨qd⟩ := q
  have hq : ("' or fullText contains '" : String).data =
      '\'' :: (" or fullText contains '" : String).data := rfl
  have hdata : (searchQuery (String.mk qd)).data =
      nameContainsMarker.data ++ (qd ++ '\'' ::
        ((" or fullText contains '" : String).data ++
          (qd ++ ("') and trashed=false" : String).data))) := by
    simp [searchQuery, nameContainsMarker, String.data_append, List.append_assoc, hq]
  unfold extractNameContainsArg
  rw [hdata, prefB_append, List.drop_left]
  rw [readQuotedAux_append _ h]
  rfl

set_option maxRecDepth 4000 in
/-- C8 witness: the amended statement evaluated for the special-character-free
query "budget". -/
theorem C8_literal_roundtrip_witness :
    (∀ c ∈ "budget".data, c ≠ '\'' ∧ c ≠ '\\') ∧
    extractNameContainsArg (searchQuery "budget") = some "budget" :=
  ⟨by decide, C8_literal_roundtrip_when_no_specials "budget" (by decide)⟩
